import Mathlib

/-!
Verification development for the Ocean Hazard Alert API backend
(src/backend/server.py).

The backend's decision logic is embedded shallowly:

* rationals (`ℚ`) stand for Python floats, with arithmetic read exactly;
* Python `Optional` fields become `Option`;
* the MongoDB collection of reports becomes a `List HazardReport` in
  insertion order (the order `find()` returns documents);
* the external LLM call inside `classify_hazard_with_ai` is represented by
  an `LlmOutcome` value describing what the call produced: the call raised,
  the response was not JSON, or the response parsed to a JSON object with
  some subset of the expected keys (`dict.get` with a default becomes
  `Option.getD`);
* `report.panic_index or 50` keeps Python truthiness: both `None` and `0`
  are falsy, so both are replaced by `50` (`pythonOr50`);
* Python's stable `list.sort(key=..., reverse=True)` is modelled by a
  stable descending insertion sort (`List.insertionSort` over
  `priorityOrder`), which produces the same output as any stable sort for
  the same preorder;
* `round(x, 1)` is Python's round-half-to-even at one decimal (`round1`).
-/

namespace OceanHazard

/-- Location model from server.py (`class Location`). -/
structure Location where
  latitude : ℚ
  longitude : ℚ
  address : Option String
deriving DecidableEq

/-- Hazard report model from server.py (`class HazardReport`). -/
structure HazardReport where
  id : String
  name : String
  location : Location
  hazard_type : String
  description : String
  media_base64 : Option String
  media_type : Option String
  severity : Option String
  panic_index : Option ℤ
  ai_category : Option String
  created_at : String
  status : String
deriving DecidableEq

/-- Derived priority entry from server.py (`class PriorityReport`). -/
structure PriorityReport where
  report : HazardReport
  priority_score : ℚ
deriving DecidableEq

/-- One element of the heatmap payload built by `get_heatmap_data`. -/
structure HeatPoint where
  lat : ℚ
  lng : ℚ
  intensity : ℚ
  hazard_type : String
  severity : Option String
deriving DecidableEq

/-- The dictionary returned by `classify_hazard_with_ai`: its four keys are
always populated. -/
structure ClassifyResult where
  severity : String
  panic_index : ℤ
  ai_category : String
  reasoning : String
deriving DecidableEq

/-- What the external LLM call inside `classify_hazard_with_ai` produced:
the `chat.send_message` call raised, the response failed `json.loads`, or it
parsed to a JSON object carrying some subset of the expected keys. -/
inductive LlmOutcome where
  | callFailed
  | badJson
  | jsonObject (severity : Option String) (panic_index : Option ℤ)
      (ai_category : Option String) (reasoning : Option String)
deriving DecidableEq

/-- The statistics object returned by `get_dashboard_stats` (the
`hazard_types` dictionary carries no claim and is omitted). -/
structure DashboardStats where
  total_reports : ℕ
  high_severity : ℕ
  medium_severity : ℕ
  low_severity : ℕ
  average_panic_index : ℚ
  active_alerts : ℕ
deriving DecidableEq

/-- `classify_hazard_with_ai` (server.py lines 86-138): the inner
`try/except json.JSONDecodeError` applies `result.get(key, default)` per key
of a parsed object; a non-JSON response takes the inner fallback; any raise
of the call takes the outer fallback. -/
def classify_hazard_with_ai (_description hazard_type : String)
    (llm : LlmOutcome) : ClassifyResult :=
  match llm with
  | .callFailed =>
    { severity := "Medium", panic_index := 50, ai_category := hazard_type,
      reasoning := "Default classification applied" }
  | .badJson =>
    { severity := "Medium", panic_index := 50, ai_category := hazard_type,
      reasoning := "AI analysis completed" }
  | .jsonObject s p c r =>
    { severity := s.getD "Medium", panic_index := p.getD 50,
      ai_category := c.getD hazard_type,
      reasoning := r.getD "AI analysis completed" }

/-- `create_report` (server.py lines 168-216): build the report from the
form fields, enrich it with the classification result, append it to the
stored collection (`insert_one`), and return it. The generated `id` and
`created_at` values and the media upload are passed in explicitly. -/
def create_report (name : String) (latitude longitude : ℚ) (address : String)
    (hazard_type description : String) (media : Option (String × String))
    (new_id new_created_at : String) (llm : LlmOutcome)
    (stored : List HazardReport) : HazardReport × List HazardReport :=
  let ai_result := classify_hazard_with_ai description hazard_type llm
  let report : HazardReport :=
    { id := new_id
      name := name
      location :=
        { latitude := latitude, longitude := longitude, address := some address }
      hazard_type := hazard_type
      description := description
      media_base64 := media.map (fun m => m.1)
      media_type := media.map (fun m => m.2)
      severity := some ai_result.severity
      panic_index := some ai_result.panic_index
      ai_category := some ai_result.ai_category
      created_at := new_created_at
      status := "pending" }
  (report, stored ++ [report])

/-- The dictionary lookup `severity_weights.get(report.severity, 2)` with
`severity_weights = {"Low": 1, "Medium": 2, "High": 3}` in
`get_priority_reports` (server.py lines 234-235). -/
def severity_weights_priority (severity : Option String) : ℚ :=
  if severity = some "Low" then 1
  else if severity = some "Medium" then 2
  else if severity = some "High" then 3
  else 2

/-- Python `report.panic_index or 50`: `None` and `0` are both falsy, so
both give `50`; every other integer is returned unchanged. -/
def pythonOr50 (panic_index : Option ℤ) : ℤ :=
  match panic_index with
  | none => 50
  | some v => if v = 0 then 50 else v

/-- The per-report priority score of `get_priority_reports` (server.py
lines 233-237): `severity_score * 0.6 + ((panic_index or 50) / 100) * 0.4`. -/
def priority_score (severity : Option String) (panic_index : Option ℤ) : ℚ :=
  severity_weights_priority severity * 0.6 +
    (pythonOr50 panic_index : ℚ) / 100 * 0.4

/-- Builds the `PriorityReport` appended for each stored report in
`get_priority_reports` (server.py lines 239-242). -/
def scoreReport (r : HazardReport) : PriorityReport :=
  { report := r, priority_score := priority_score r.severity r.panic_index }

/-- The order used by `priority_reports.sort(key=lambda x: x.priority_score,
reverse=True)`: `a` may precede `b` iff `b`'s score is at most `a`'s. -/
def priorityOrder (a b : PriorityReport) : Prop :=
  b.priority_score ≤ a.priority_score

instance : DecidableRel priorityOrder :=
  fun a b => inferInstanceAs (Decidable (b.priority_score ≤ a.priority_score))

instance : IsTotal PriorityReport priorityOrder :=
  ⟨fun a b => le_total b.priority_score a.priority_score⟩

instance : IsTrans PriorityReport priorityOrder :=
  ⟨fun _ _ _ hab hbc => le_trans hbc hab⟩

/-- The scored collection after the stable descending sort of
`get_priority_reports`, before truncation (server.py lines 229-245). -/
def priority_all (reports : List HazardReport) : List PriorityReport :=
  List.insertionSort priorityOrder (reports.map scoreReport)

/-- `get_priority_reports` (server.py lines 224-247): score every stored
report, sort stably by descending score, return the first 10. -/
def get_priority_reports (reports : List HazardReport) : List PriorityReport :=
  (priority_all reports).take 10

/-- The dictionary lookup `severity_weights.get(report.severity, 0.5)` with
`severity_weights = {"Low": 0.3, "Medium": 0.6, "High": 1.0}` in
`get_heatmap_data` (server.py lines 259-260). -/
def severity_weights_heatmap (severity : Option String) : ℚ :=
  if severity = some "Low" then 0.3
  else if severity = some "Medium" then 0.6
  else if severity = some "High" then 1.0
  else 0.5

/-- The per-report heatmap intensity of `get_heatmap_data` (server.py lines
258-262): `min(intensity + (panic_index or 50) / 200, 1.0)`. -/
def heatmap_intensity (severity : Option String) (panic_index : Option ℤ) : ℚ :=
  min (severity_weights_heatmap severity + (pythonOr50 panic_index : ℚ) / 200) 1.0

/-- `get_heatmap_data` (server.py lines 249-272): map every stored report to
its heatmap point, preserving retrieval order. -/
def get_heatmap_data (reports : List HazardReport) : List HeatPoint :=
  reports.map (fun r =>
    { lat := r.location.latitude
      lng := r.location.longitude
      intensity := heatmap_intensity r.severity r.panic_index
      hazard_type := r.hazard_type
      severity := r.severity })

/-- Python's `round` to an integer: round half to even. -/
def roundHalfEven (q : ℚ) : ℤ :=
  if q - ⌊q⌋ < 1/2 then ⌊q⌋
  else if 1/2 < q - ⌊q⌋ then ⌊q⌋ + 1
  else if ⌊q⌋ % 2 = 0 then ⌊q⌋ else ⌊q⌋ + 1

/-- Python's `round(x, 1)`: round half to even at one decimal place. -/
def round1 (q : ℚ) : ℚ :=
  (roundHalfEven (q * 10) : ℚ) / 10

/-- `sum(report.get("panic_index", 50) for report in reports)` in
`get_dashboard_stats` (server.py line 301), as the left fold Python's `sum`
performs. -/
def total_panic (reports : List HazardReport) : ℤ :=
  reports.foldl (fun acc r => acc + r.panic_index.getD 50) 0

/-- `get_dashboard_stats` (server.py lines 283-314): severity counts via
`count_documents`, the guarded average panic index, and the rounding applied
in the response (`round(avg_panic, 1)`). -/
def get_dashboard_stats (reports : List HazardReport) : DashboardStats :=
  let total_reports := reports.length
  let high_severity := reports.countP (fun r => decide (r.severity = some "High"))
  let medium_severity := reports.countP (fun r => decide (r.severity = some "Medium"))
  let low_severity := reports.countP (fun r => decide (r.severity = some "Low"))
  let avg_panic : ℚ :=
    if 0 < total_reports then (total_panic reports : ℚ) / total_reports else 0
  { total_reports := total_reports
    high_severity := high_severity
    medium_severity := medium_severity
    low_severity := low_severity
    average_panic_index := round1 avg_panic
    active_alerts := high_severity }

/-- `db.reports.delete_one({"id": report_id})`: remove the first stored
document whose `id` matches, returning the deleted count and the remaining
collection. -/
def delete_one (report_id : String) : List HazardReport → ℕ × List HazardReport
  | [] => (0, [])
  | r :: rest =>
    if r.id = report_id then (1, rest)
    else ((delete_one report_id rest).1, r :: (delete_one report_id rest).2)

/-- `delete_report` (server.py lines 316-322): delete by id; a deleted count
of zero raises HTTP 404 (`Except.error`), otherwise the success message is
returned. -/
def delete_report (report_id : String) (stored : List HazardReport) :
    Except String String × List HazardReport :=
  if (delete_one report_id stored).1 = 0 then
    (Except.error "Report not found", (delete_one report_id stored).2)
  else (Except.ok "Report deleted successfully", (delete_one report_id stored).2)

/-- The data-model bound on a stored panic index (spec section 3:
`panic_index`, when present, is an integer in `[0,100]`). -/
def validPanic (panic_index : Option ℤ) : Prop :=
  match panic_index with
  | none => True
  | some v => 0 ≤ v ∧ v ≤ 100

/-- The data-model bound on the panic index carried by a classification
response, trivial for the fallback outcomes. -/
def llmPanicOk : LlmOutcome → Prop
  | .jsonObject _ p _ _ => validPanic p
  | _ => True

/-- A stored report with severity High and panic index 100, used as the
concrete input refuting C4. -/
def highReport : HazardReport :=
  { id := "r-high", name := "n",
    location := { latitude := 0, longitude := 0, address := none },
    hazard_type := "Tsunami", description := "d", media_base64 := none,
    media_type := none, severity := some "High", panic_index := some 100,
    ai_category := some "Tsunami", created_at := "t", status := "pending" }

/-- A stored report with severity Medium and panic index 30, used as a
concrete witness input. -/
def sampleReport : HazardReport :=
  { id := "r-sample", name := "m",
    location := { latitude := 10, longitude := 70, address := some "coast" },
    hazard_type := "Flood", description := "water level up",
    media_base64 := none, media_type := none, severity := some "Medium",
    panic_index := some 30, ai_category := some "Flood",
    created_at := "t2", status := "pending" }

/-- A stored report with a missing panic index, used as a concrete witness
input. -/
def sampleReport2 : HazardReport :=
  { id := "r-sample-2", name := "k",
    location := { latitude := 11, longitude := 71, address := none },
    hazard_type := "Cyclone", description := "strong wind",
    media_base64 := none, media_type := none, severity := some "High",
    panic_index := none, ai_category := some "Cyclone",
    created_at := "t3", status := "pending" }

/-- A report created while the classifier returned an out-of-range panic
index of 500: `create_report` stores the value verbatim. -/
def unclampedReport : HazardReport :=
  (create_report "reporter" 0 0 "" "Flood" "waves rising" none "id-1"
    "2024-01-01T00:00:00+00:00"
    (.jsonObject (some "High") (some 500) none none) []).1

/-- C1: the spec's fixed points for the read-time scores. The High/100 and
absent/absent points hold, but at severity Low with panic_index 0 the code
returns priority 0.8 and intensity 0.55 rather than the specified 0.6 and
0.3: `panic_index or 50` treats the integer 0 as falsy and substitutes 50,
although the classification prompt defines 0 as "no panic". -/
theorem C1_fixed_points :
    priority_score (some "High") (some 100) = 2.2 ∧
    heatmap_intensity (some "High") (some 100) = 1 ∧
    priority_score none none = 1.4 ∧
    heatmap_intensity none none = 0.75 ∧
    priority_score (some "Low") (some 0) = 0.8 ∧
    priority_score (some "Low") (some 0) ≠ 0.6 ∧
    heatmap_intensity (some "Low") (some 0) = 0.55 ∧
    heatmap_intensity (some "Low") (some 0) ≠ 0.3 := by
  refine ⟨?_, ?_, ?_, ?_, ?_, ?_, ?_, ?_⟩ <;>
    simp +decide [priority_score, severity_weights_priority, pythonOr50,
      heatmap_intensity, severity_weights_heatmap] <;>
    norm_num [min_def]

/-- C6: the priority score is not monotone in the panic index: raising the
panic index from 0 to 1 at fixed severity Low drops the score from 0.8 to
0.604, because `panic_index or 50` replaces the falsy integer 0 by 50. -/
theorem C6_panic_monotonicity_fails :
    priority_score (some "Low") (some 0) = 0.8 ∧
    priority_score (some "Low") (some 1) = 0.604 ∧
    priority_score (some "Low") (some 1) < priority_score (some "Low") (some 0) := by
  refine ⟨?_, ?_, ?_⟩ <;>
    simp +decide [priority_score, severity_weights_priority, pythonOr50] <;>
    norm_num

/-- C3: the classification adapter never propagates a failure: a raised
call or an unparsable response yields the fully populated default result,
and in a parsed object each missing key is defaulted independently while
present keys are kept. -/
theorem C3_classify_never_fails (description hazard_type : String) :
    classify_hazard_with_ai description hazard_type .callFailed =
      { severity := "Medium", panic_index := 50, ai_category := hazard_type,
        reasoning := "Default classification applied" } ∧
    classify_hazard_with_ai description hazard_type .badJson =
      { severity := "Medium", panic_index := 50, ai_category := hazard_type,
        reasoning := "AI analysis completed" } ∧
    ∀ s p c r,
      ((s = none →
          (classify_hazard_with_ai description hazard_type
            (.jsonObject s p c r)).severity = "Medium") ∧
        (∀ v, s = some v →
          (classify_hazard_with_ai description hazard_type
            (.jsonObject s p c r)).severity = v)) ∧
      ((p = none →
          (classify_hazard_with_ai description hazard_type
            (.jsonObject s p c r)).panic_index = 50) ∧
        (∀ v, p = some v →
          (classify_hazard_with_ai description hazard_type
            (.jsonObject s p c r)).panic_index = v)) ∧
      ((c = none →
          (classify_hazard_with_ai description hazard_type
            (.jsonObject s p c r)).ai_category = hazard_type) ∧
        (∀ v, c = some v →
          (classify_hazard_with_ai description hazard_type
            (.jsonObject s p c r)).ai_category = v)) := by
  refine ⟨rfl, rfl, fun s p c r => ⟨⟨?_, ?_⟩, ⟨?_, ?_⟩, ⟨?_, ?_⟩⟩⟩ <;>
    first
      | (rintro rfl; rfl)
      | (intro v hv; subst hv; rfl)

/-- Witness for C3 at a response carrying only `severity` and
`ai_category`: the present keys are kept and the missing panic index is
defaulted. -/
theorem C3_classify_never_fails_witness :
    (classify_hazard_with_ai "desc" "Flood"
      (.jsonObject (some "High") none (some "Coastal Flood") none)).severity = "High" ∧
    (classify_hazard_with_ai "desc" "Flood"
      (.jsonObject (some "High") none (some "Coastal Flood") none)).panic_index = 50 :=
  ⟨((C3_classify_never_fails "desc" "Flood").2.2
      (some "High") none (some "Coastal Flood") none).1.2 "High" rfl,
    ((C3_classify_never_fails "desc" "Flood").2.2
      (some "High") none (some "Coastal Flood") none).2.1.1 rfl⟩

/-- C10: every successfully created report is stored and returned with
severity, panic index and AI category all present, for every classification
outcome, and the stored collection gains exactly the returned report. -/
theorem C10_created_report_fully_classified (name : String) (lat lon : ℚ)
    (address hazard_type description : String) (media : Option (String × String))
    (new_id new_created_at : String) (llm : LlmOutcome)
    (stored : List HazardReport) :
    (create_report name lat lon address hazard_type description media
        new_id new_created_at llm stored).1.severity.isSome = true ∧
    (create_report name lat lon address hazard_type description media
        new_id new_created_at llm stored).1.panic_index.isSome = true ∧
    (create_report name lat lon address hazard_type description media
        new_id new_created_at llm stored).1.ai_category.isSome = true ∧
    (create_report name lat lon address hazard_type description media
        new_id new_created_at llm stored).1.severity.isSome =
      (create_report name lat lon address hazard_type description media
        new_id new_created_at llm stored).1.panic_index.isSome ∧
    (create_report name lat lon address hazard_type description media
        new_id new_created_at llm stored).2 =
      stored ++ [(create_report name lat lon address hazard_type description media
        new_id new_created_at llm stored).1] :=
  ⟨rfl, rfl, rfl, rfl, rfl⟩

/-- Counterexample to C8: the creation path performs no clamping, so a
classification response with panic_index 500 is stored as 500, outside
`[0,100]`. -/
theorem C8_counterexample :
    unclampedReport.panic_index = some 500 ∧
    ¬ validPanic unclampedReport.panic_index := by
  refine ⟨rfl, fun h => absurd h.2 ?_⟩
  decide

/-- C8 amended: the stored panic index is exactly the classifier's value
(50 for the fallback outcomes or a missing key, verbatim otherwise, with no
clamping); it lies in `[0,100]` whenever the classification response's
value does. -/
theorem C8_amended_panic_range (name : String) (lat lon : ℚ)
    (address hazard_type description : String) (media : Option (String × String))
    (new_id new_created_at : String) (llm : LlmOutcome)
    (stored : List HazardReport) (hp : llmPanicOk llm) :
    (create_report name lat lon address hazard_type description media
        new_id new_created_at llm stored).1.panic_index =
      some (classify_hazard_with_ai description hazard_type llm).panic_index ∧
    validPanic (create_report name lat lon address hazard_type description media
        new_id new_created_at llm stored).1.panic_index := by
  refine ⟨rfl, ?_⟩
  cases llm with
  | callFailed => exact ⟨(by decide : (0:ℤ) ≤ 50), (by decide : (50:ℤ) ≤ 100)⟩
  | badJson => exact ⟨(by decide : (0:ℤ) ≤ 50), (by decide : (50:ℤ) ≤ 100)⟩
  | jsonObject s p c r =>
    cases p with
    | none => exact ⟨(by decide : (0:ℤ) ≤ 50), (by decide : (50:ℤ) ≤ 100)⟩
    | some v => exact hp

/-- The severity weight of the priority score always lies in `[1, 3]`. -/
lemma severity_weights_priority_bounds (sev : Option String) :
    1 ≤ severity_weights_priority sev ∧ severity_weights_priority sev ≤ 3 := by
  unfold severity_weights_priority
  split_ifs <;> norm_num

/-- `panic_index or 50` stays in `[0, 100]` when the stored panic index
respects the data-model bound. -/
lemma pythonOr50_bounds (p : Option ℤ) (hp : validPanic p) :
    0 ≤ pythonOr50 p ∧ pythonOr50 p ≤ 100 := by
  cases p with
  | none => exact ⟨by decide, by decide⟩
  | some v =>
    show 0 ≤ (if v = 0 then 50 else v) ∧ (if v = 0 then 50 else v) ≤ 100
    split_ifs with h0
    · exact ⟨by decide, by decide⟩
    · exact ⟨hp.1, hp.2⟩

/-- The priority score lies in `[0.6, 2.2]` for any severity and any
panic index respecting the data-model bound. -/
lemma priority_score_bounds (sev : Option String) (p : Option ℤ)
    (hp : validPanic p) :
    0.6 ≤ priority_score sev p ∧ priority_score sev p ≤ 2.2 := by
  obtain ⟨hw1, hw2⟩ := severity_weights_priority_bounds sev
  obtain ⟨hp1, hp2⟩ := pythonOr50_bounds p hp
  have hq1 : (0:ℚ) ≤ (pythonOr50 p : ℚ) := by exact_mod_cast hp1
  have hq2 : (pythonOr50 p : ℚ) ≤ 100 := by exact_mod_cast hp2
  unfold priority_score
  constructor <;> linarith

/-- The heatmap base weight always lies in `[0.3, 1]`. -/
lemma severity_weights_heatmap_bounds (sev : Option String) :
    0.3 ≤ severity_weights_heatmap sev ∧ severity_weights_heatmap sev ≤ 1 := by
  unfold severity_weights_heatmap
  split_ifs <;> norm_num

/-- The heatmap intensity lies in `[0, 1]` for any severity and any panic
index respecting the data-model bound. -/
lemma heatmap_intensity_bounds (sev : Option String) (p : Option ℤ)
    (hp : validPanic p) :
    0 ≤ heatmap_intensity sev p ∧ heatmap_intensity sev p ≤ 1 := by
  obtain ⟨hb1, hb2⟩ := severity_weights_heatmap_bounds sev
  obtain ⟨hp1, hp2⟩ := pythonOr50_bounds p hp
  have hq1 : (0:ℚ) ≤ (pythonOr50 p : ℚ) := by exact_mod_cast hp1
  unfold heatmap_intensity
  constructor
  · exact le_min (by linarith) (by norm_num)
  · exact (min_le_right _ _).trans (by norm_num)

/-- Counterexample to C4: on the collection holding only `highReport`, the
priority-list entry carries score 2.2, which is not in `[0, 1]`. -/
theorem C4_counterexample :
    ¬ (∀ p ∈ get_priority_reports [highReport],
        0 ≤ p.priority_score ∧ p.priority_score ≤ 1) := by
  intro h
  have hm : scoreReport highReport ∈ get_priority_reports [highReport] := by
    rw [show get_priority_reports [highReport] = [scoreReport highReport] from rfl]
    exact List.mem_singleton.mpr rfl
  have hs : (scoreReport highReport).priority_score = 2.2 := by
    simp +decide [scoreReport, highReport, priority_score,
      severity_weights_priority, pythonOr50]
    norm_num
  have h2 := (h (scoreReport highReport) hm).2
  rw [hs] at h2
  exact absurd h2 (by norm_num)

/-- C4 amended: for a collection respecting the data-model panic bound,
every priority-list entry's score lies in `[0.6, 2.2]` (the spec's own
formula range), not `[0, 1]`. -/
theorem C4_amended_priority_score_range (l : List HazardReport)
    (h : ∀ r ∈ l, validPanic r.panic_index) :
    ∀ p ∈ get_priority_reports l,
      0.6 ≤ p.priority_score ∧ p.priority_score ≤ 2.2 := by
  intro p hp
  have hp2 : p ∈ priority_all l :=
    (List.take_sublist 10 (priority_all l)).subset hp
  rw [priority_all] at hp2
  have hp3 : p ∈ l.map scoreReport :=
    (List.perm_insertionSort priorityOrder (l.map scoreReport)).mem_iff.mp hp2
  obtain ⟨r, hr, rfl⟩ := List.mem_map.mp hp3
  exact priority_score_bounds r.severity r.panic_index (h r hr)

/-- Witness for the amended C4 on the singleton collection of
`sampleReport`. -/
theorem C4_amended_priority_score_range_witness :
    0.6 ≤ (scoreReport sampleReport).priority_score ∧
    (scoreReport sampleReport).priority_score ≤ 2.2 :=
  C4_amended_priority_score_range [sampleReport]
    (fun r hr => by
      rw [List.mem_singleton] at hr
      subst hr
      exact ⟨(by decide : (0:ℤ) ≤ 30), (by decide : (30:ℤ) ≤ 100)⟩)
    (scoreReport sampleReport)
    (by rw [show get_priority_reports [sampleReport] =
          [scoreReport sampleReport] from rfl]
        exact List.mem_singleton.mpr rfl)

/-- C5: the heatmap intensity lies in `[0, 1]` for every severity value
(known, unknown, or missing) and every data-model panic index (present or
missing), both as a function and for every point `get_heatmap_data`
produces. -/
theorem C5_heatmap_intensity_range :
    (∀ (sev : Option String) (p : Option ℤ), validPanic p →
        0 ≤ heatmap_intensity sev p ∧ heatmap_intensity sev p ≤ 1) ∧
    ∀ l : List HazardReport, (∀ r ∈ l, validPanic r.panic_index) →
      ∀ pt ∈ get_heatmap_data l, 0 ≤ pt.intensity ∧ pt.intensity ≤ 1 := by
  refine ⟨fun sev p hp => heatmap_intensity_bounds sev p hp, ?_⟩
  intro l hl pt hpt
  obtain ⟨r, hr, rfl⟩ := List.mem_map.mp hpt
  exact heatmap_intensity_bounds r.severity r.panic_index (hl r hr)

/-- Witness for C5 at a severity outside the enum and a present panic
index. -/
theorem C5_heatmap_intensity_range_witness :
    0 ≤ heatmap_intensity (some "Volcano") (some 7) ∧
    heatmap_intensity (some "Volcano") (some 7) ≤ 1 :=
  C5_heatmap_intensity_range.1 (some "Volcano") (some 7)
    ⟨(by decide : (0:ℤ) ≤ 7), (by decide : (7:ℤ) ≤ 100)⟩

/-- Witness for the amended C8 at an in-range classifier value of 70. -/
theorem C8_amended_panic_range_witness :
    (create_report "r" 0 0 "" "Flood" "w" none "id-2" "t"
        (.jsonObject none (some 70) none none) []).1.panic_index = some 70 ∧
    validPanic (create_report "r" 0 0 "" "Flood" "w" none "id-2" "t"
        (.jsonObject none (some 70) none none) []).1.panic_index :=
  ⟨(C8_amended_panic_range "r" 0 0 "" "Flood" "w" none "id-2" "t"
      (.jsonObject none (some 70) none none) [] ⟨by decide, by decide⟩).1.trans rfl,
    (C8_amended_panic_range "r" 0 0 "" "Flood" "w" none "id-2" "t"
      (.jsonObject none (some 70) none none) [] ⟨by decide, by decide⟩).2⟩

/-- Filtering to one score value commutes with the stable insert: the
inserted element lands in front of the equal-scored elements already
present exactly when it carries that score, because the insert only skips
strictly greater scores. -/
lemma filter_score_orderedInsert (c : ℚ) (a : PriorityReport)
    (l : List PriorityReport) :
    (List.orderedInsert priorityOrder a l).filter
        (fun x => decide (x.priority_score = c)) =
      if a.priority_score = c then
        a :: l.filter (fun x => decide (x.priority_score = c))
      else l.filter (fun x => decide (x.priority_score = c)) := by
  induction l with
  | nil =>
    by_cases h : a.priority_score = c <;> simp [List.orderedInsert, h]
  | cons b t ih =>
    by_cases hab : priorityOrder a b
    · simp only [List.orderedInsert, if_pos hab]
      by_cases hac : a.priority_score = c <;>
        simp [List.filter_cons, hac]
    · simp only [List.orderedInsert, if_neg hab]
      have hab2 : ¬ b.priority_score ≤ a.priority_score := hab
      have hlt : a.priority_score < b.priority_score := not_le.mp hab2
      by_cases hbc : b.priority_score = c
      · have hac : a.priority_score ≠ c := by
          intro h
          rw [h, hbc] at hlt
          exact lt_irrefl c hlt
        simp [List.filter_cons, hbc, hac, ih]
      · by_cases hac : a.priority_score = c <;>
          simp [List.filter_cons, hbc, hac, ih]

/-- Filtering to one score value commutes with the whole stable sort: the
sorted list keeps the original retrieval order within every score class. -/
lemma filter_score_insertionSort (c : ℚ) (l : List PriorityReport) :
    (List.insertionSort priorityOrder l).filter
        (fun x => decide (x.priority_score = c)) =
      l.filter (fun x => decide (x.priority_score = c)) := by
  induction l with
  | nil => rfl
  | cons a t ih =>
    simp only [List.insertionSort]
    rw [filter_score_orderedInsert]
    by_cases h : a.priority_score = c <;> simp [List.filter_cons, h, ih]

/-- C2: the top-priority list has at most 10 entries; it is sorted by
descending priority score; the sort is stable (within every score class
the sorted collection keeps the original retrieval order, stated via
`filter` on `priority_all`, of which the returned list is the prefix);
when at most 10 reports are stored every report appears; and an empty
collection yields an empty list. -/
theorem C2_top_priority_list (l : List HazardReport) :
    (get_priority_reports l).length ≤ 10 ∧
    List.Sorted priorityOrder (get_priority_reports l) ∧
    (∀ c : ℚ,
      (priority_all l).filter (fun x => decide (x.priority_score = c)) =
        (l.map scoreReport).filter (fun x => decide (x.priority_score = c))) ∧
    (l.length ≤ 10 → ∀ r ∈ l, ∃ p ∈ get_priority_reports l, p.report = r) ∧
    (l = [] → get_priority_reports l = []) := by
  refine ⟨?_, ?_, ?_, ?_, ?_⟩
  · rw [get_priority_reports, List.length_take]
    exact min_le_left _ _
  · exact List.Pairwise.sublist (List.take_sublist 10 _)
      (List.sorted_insertionSort priorityOrder (l.map scoreReport))
  · intro c
    rw [priority_all]
    exact filter_score_insertionSort c (l.map scoreReport)
  · intro hlen r hr
    have hlen2 : (priority_all l).length ≤ 10 := by
      rw [priority_all, List.length_insertionSort, List.length_map]
      exact hlen
    have heq : get_priority_reports l = priority_all l := by
      rw [get_priority_reports, List.take_of_length_le hlen2]
    refine ⟨scoreReport r, ?_, rfl⟩
    rw [heq, priority_all,
      (List.perm_insertionSort priorityOrder (l.map scoreReport)).mem_iff]
    exact List.mem_map_of_mem scoreReport hr
  · rintro rfl
    rfl

/-- Witness for C2 on the singleton collection of `sampleReport`. -/
theorem C2_top_priority_list_witness :
    ∃ p ∈ get_priority_reports [sampleReport], p.report = sampleReport :=
  (C2_top_priority_list [sampleReport]).2.2.2.1 (by decide) sampleReport
    (List.mem_singleton.mpr rfl)

/-- Python's `sum` over the panic indices is the fold it performs. -/
lemma foldl_add_panic (l : List HazardReport) (acc : ℤ) :
    l.foldl (fun a r => a + r.panic_index.getD 50) acc =
      acc + (l.map (fun r => r.panic_index.getD 50)).sum := by
  induction l generalizing acc with
  | nil => simp
  | cons a t ih => simp [List.foldl_cons, ih, add_assoc]

/-- C7: the dashboard's average panic index is the mean of the stored
panic indices with every missing value contributing 50, rounded to one
decimal place, and is 0 on an empty collection. -/
theorem C7_average_panic_index (l : List HazardReport) :
    (l ≠ [] →
      (get_dashboard_stats l).average_panic_index =
        round1 ((((l.map (fun r => r.panic_index.getD 50)).sum : ℤ) : ℚ) /
          l.length)) ∧
    (l = [] →
      (get_dashboard_stats l).average_panic_index = 0 ∧
      (get_dashboard_stats l).total_reports = 0) := by
  constructor
  · intro hne
    have hpos : 0 < l.length := List.length_pos.mpr hne
    have h1 : (get_dashboard_stats l).average_panic_index =
        round1 ((total_panic l : ℚ) / l.length) := by
      show round1 (if 0 < l.length then (total_panic l : ℚ) / l.length else 0) =
        round1 ((total_panic l : ℚ) / l.length)
      rw [if_pos hpos]
    rw [h1, total_panic, foldl_add_panic, zero_add]
  · rintro rfl
    refine ⟨?_, rfl⟩
    show round1 0 = 0
    norm_num [round1, roundHalfEven]

/-- Witness for C7 on a two-report collection (panic indices 30 and
missing): the average is `round1 ((30 + 50) / 2) = 40`. -/
theorem C7_average_panic_index_witness :
    (get_dashboard_stats [sampleReport, sampleReport2]).average_panic_index =
      round1 (((([sampleReport, sampleReport2].map
        (fun r => r.panic_index.getD 50)).sum : ℤ) : ℚ) /
          ([sampleReport, sampleReport2].length)) ∧
    (get_dashboard_stats [sampleReport, sampleReport2]).average_panic_index = 40 :=
  ⟨(C7_average_panic_index [sampleReport, sampleReport2]).1
      (List.cons_ne_nil _ _),
    by norm_num [get_dashboard_stats, total_panic, sampleReport, sampleReport2,
      round1, roundHalfEven]⟩

/-- When no stored report matches the id, `delete_one` deletes nothing and
leaves the collection unchanged. -/
lemma delete_one_no_match (report_id : String) (l : List HazardReport)
    (h : ∀ r ∈ l, r.id ≠ report_id) :
    delete_one report_id l = (0, l) := by
  induction l with
  | nil => rfl
  | cons a t ih =>
    have ha : a.id ≠ report_id := h a (List.mem_cons_self a t)
    simp only [delete_one, if_neg ha,
      ih (fun r hr => h r (List.mem_cons_of_mem a hr))]

/-- When the stored ids are distinct and a matching report is present,
`delete_one` deletes exactly the matching report. -/
lemma delete_one_unique (report_id : String) (l : List HazardReport)
    (hnd : (l.map HazardReport.id).Nodup) (r : HazardReport) (hr : r ∈ l)
    (hid : r.id = report_id) :
    delete_one report_id l =
      (1, l.filter (fun x => decide (x.id ≠ report_id))) := by
  induction l with
  | nil => cases hr
  | cons a t ih =>
    rw [List.map_cons, List.nodup_cons] at hnd
    obtain ⟨hna, hndt⟩ := hnd
    by_cases ha : a.id = report_id
    · have hft : t.filter (fun x => !decide (x.id = report_id)) = t := by
        apply List.filter_eq_self.mpr
        intro x hx
        simp only [Bool.not_eq_true', decide_eq_false_iff_not]
        intro hxid
        have hmem : x.id ∈ t.map HazardReport.id :=
          List.mem_map_of_mem HazardReport.id hx
        rw [hxid, ← ha] at hmem
        exact hna hmem
      simp [delete_one, if_pos ha, List.filter_cons, ha, hft]
    · have hrt : r ∈ t := by
        rcases List.mem_cons.mp hr with h1 | h1
        · subst h1
          exact absurd hid ha
        · exact h1
      rw [show delete_one report_id (a :: t) =
          ((delete_one report_id t).1, a :: (delete_one report_id t).2) from by
            simp [delete_one, if_neg ha],
        ih hndt hrt]
      simp [List.filter_cons, ha]

/-- C9: deleting an id absent from the collection yields the 404 outcome
with the collection unchanged; deleting a present id (ids being unique)
yields the success message and removes exactly the matching report. -/
theorem C9_delete_report (report_id : String) (l : List HazardReport) :
    ((∀ r ∈ l, r.id ≠ report_id) →
      delete_report report_id l = (Except.error "Report not found", l)) ∧
    ((l.map HazardReport.id).Nodup →
      ∀ r ∈ l, r.id = report_id →
        delete_report report_id l =
          (Except.ok "Report deleted successfully",
            l.filter (fun x => decide (x.id ≠ report_id)))) := by
  constructor
  · intro h
    simp [delete_report, delete_one_no_match report_id l h]
  · intro hnd r hr hid
    simp [delete_report, delete_one_unique report_id l hnd r hr hid]

/-- Witness for C9: deleting `highReport`'s id from a two-report collection
succeeds and removes exactly that report. -/
theorem C9_delete_report_witness :
    delete_report "r-high" [sampleReport, highReport] =
      (Except.ok "Report deleted successfully",
        [sampleReport, highReport].filter
          (fun x => decide (x.id ≠ "r-high"))) :=
  (C9_delete_report "r-high" [sampleReport, highReport]).2
    (by decide) highReport
    (List.mem_cons_of_mem sampleReport (List.mem_singleton.mpr rfl)) rfl

end OceanHazard
